import Mathlib

/-!
Shallow embedding of the `go_util` repository's two packages and proofs of the
specification's claims about them.

* `pkg/task_manager/task_manager.go` — a task lifecycle manager built on a
  `sync.Map` (task id → `context.CancelFunc`) and a `sync.WaitGroup`.
  The registry is embedded as an association list from task id to a `Nat`
  token identifying one generation's `CancelFunc`; calling a `CancelFunc` is
  embedded as adding its token to a `fired` set.  `context.Context` values are
  embedded as a tree: a root with a fixed termination reason, or a
  `context.WithCancel` child identified by its `CancelFunc` token.
* `pkg/shardqueue/shardqueue.go` — a hash-routed dispatcher; its routing path
  (`convertKeyToBytes`, `hashKeyToShard`, `Shard`) is embedded over `List Nat`
  byte strings with FNV-1a 32-bit arithmetic carried out mod 2^32.

Concurrency: each Go atomic operation (`sync.Map.Load`, `Store`, `Delete`,
calling a `CancelFunc`, `WaitGroup.Add/Done`) is one atomic step on the shared
state `TMState`.  Sequential compositions of those steps model one thread's
code; interleavings of the steps of several threads are modelled explicitly
where a claim is about a race (`stopStep` / `runTwoStops`).
-/

namespace GoUtil

/-- Termination reasons and error values visible in the task-manager package:
the two `context` package errors, the sentinel errors of `error.go`, and an
arbitrary application error returned by a task function. -/
inductive GoErr where
  | canceled
  | deadlineExceeded
  | errInvalidTaskID
  | errNilTaskFunc
  | errTaskAlreadyExist
  | appError (msg : String)
deriving DecidableEq

/-- A cancellation signal (`context.Context`): either a root context whose
`Err()` is fixed (e.g. `context.Background()` has reason `none`, an already
canceled context has `some .canceled`), or a child created by
`context.WithCancel(parent)`, identified by the token of its `CancelFunc`. -/
inductive Ctx where
  | root (err : Option GoErr)
  | child (parent : Ctx) (tok : Nat)
deriving DecidableEq

/-- Shared state of one `TaskManager` instance.

`tasks` embeds the `sync.Map` (key: task id, value: the stored
`context.CancelFunc`, identified by its token); `fired` is the set of tokens
whose `CancelFunc` has been called; `wg` is the `sync.WaitGroup` counter;
`nextTok` allocates fresh `CancelFunc` identities for `context.WithCancel`. -/
structure TMState where
  tasks : List (String × Nat)
  fired : List Nat
  wg : Int
  nextTok : Nat
deriving DecidableEq

/-- The initial state of `NewTaskManager()`: empty registry, zero counter. -/
def newTaskManager : TMState := ⟨[], [], 0, 0⟩

/-- Atomic step `s.tasks.Load(id)`. -/
def mapLoad (s : TMState) (id : String) : Option Nat :=
  (s.tasks.find? (fun e => e.1 == id)).map (fun e => e.2)

/-- Atomic step `s.tasks.Store(id, tok)`: at most one entry per key. -/
def mapStore (s : TMState) (id : String) (tok : Nat) : TMState :=
  { s with tasks := s.tasks.filter (fun e => e.1 != id) ++ [(id, tok)] }

/-- Atomic step `s.tasks.Delete(id)`. -/
def mapDelete (s : TMState) (id : String) : TMState :=
  { s with tasks := s.tasks.filter (fun e => e.1 != id) }

/-- Atomic step: calling the `context.CancelFunc` identified by `tok`. -/
def fireCancel (s : TMState) (tok : Nat) : TMState :=
  { s with fired := tok :: s.fired }

/-- `ctx.Err()` in state `s`: a root reports its fixed reason; a
`context.WithCancel` child reports its parent's reason once the parent is
terminated, and `context.Canceled` once its own `CancelFunc` has been
called. -/
def ctxErr (s : TMState) : Ctx → Option GoErr
  | .root e => e
  | .child p tok =>
      match ctxErr s p with
      | some e => some e
      | none => if tok ∈ s.fired then some .canceled else none

/-- `TaskManager.HasTask` (task_manager.go lines 20-23). -/
def hasTask (s : TMState) (id : String) : Bool :=
  (mapLoad s id).isSome

/-- Result of one `StartTask` call: the state at return, the returned error,
whether the supervisor goroutine was spawned, the token of the new
generation's `CancelFunc`, and the derived child context handed to the
supervisor (the task function is only ever invoked inside the supervisor). -/
structure StartResult where
  state : TMState
  err : Option GoErr
  spawned : Bool
  newTok : Option Nat
  childCtx : Option Ctx
deriving DecidableEq

/-- `TaskManager.StartTask` (task_manager.go lines 25-64), synchronous part.

`fnPresent` embeds `fn != nil`.  The body: validate id, function and context;
load and fire any previous generation's `CancelFunc`; create the child context
(`context.WithCancel(ctx)` — a fresh token); store it; `wg.Add(1)`; spawn the
supervisor goroutine and return `nil`.  The spawned supervisor's own effects
are a separate transition (`supervisorRun`), applied only when that goroutine
later runs. -/
def startTask (s : TMState) (ctx : Ctx) (id : String) (fnPresent : Bool) :
    StartResult :=
  if id = "" then ⟨s, some .errInvalidTaskID, false, none, none⟩
  else if fnPresent = false then ⟨s, some .errNilTaskFunc, false, none, none⟩
  else
    match ctxErr s ctx with
    | some e => ⟨s, some e, false, none, none⟩
    | none =>
        let s1 := match mapLoad s id with
          | some tok => fireCancel s tok
          | none => s
        let tok := s1.nextTok
        let s2 := mapStore { s1 with nextTok := s1.nextTok + 1 } id tok
        let s3 := { s2 with wg := s2.wg + 1 }
        ⟨s3, none, true, some tok, some (.child ctx tok)⟩

/-- The supervisor's deferred cleanup (task_manager.go lines 48-51):
`s.tasks.Delete(id)` — unconditional, the closure captures only `id` — then
`s.wg.Done()`. -/
def supervisorCleanup (s : TMState) (id : String) : TMState :=
  let s1 := mapDelete s id
  { s1 with wg := s1.wg - 1 }

/-- The log line chosen by the supervisor body (task_manager.go lines 53-60)
from the task function's returned outcome (`none` embeds a nil error). -/
def classifyLog (id : String) : Option GoErr → String
  | some .canceled => "Task " ++ id ++ " was canceled"
  | some _ => "Task " ++ id ++ " failed"
  | none => "Task " ++ id ++ " completed successfully"

/-- One whole supervisor run (task_manager.go lines 47-61): the task function
has returned `outcome`; the outcome is classified for logging only, and the
deferred cleanup runs on every exit path. -/
def supervisorRun (s : TMState) (id : String) (outcome : Option GoErr) :
    TMState × String :=
  (supervisorCleanup s id, classifyLog id outcome)

/-- `TaskManager.StopTask` (task_manager.go lines 66-73) as one serialized
call: `Load`, then on the ok branch call the `CancelFunc` and `Delete`. -/
def stopTask (s : TMState) (id : String) : TMState × Bool :=
  match mapLoad s id with
  | some tok => (mapDelete (fireCancel s tok) id, true)
  | none => (s, false)

/-- The broadcast phase of `GracefulShutdown` (task_manager.go lines 77-80):
`Range` over a snapshot of the registry, calling every stored `CancelFunc`. -/
def shutdownBroadcast (s : TMState) : TMState :=
  { s with fired := s.tasks.map (fun e => e.2) ++ s.fired }

/-- `TaskManager.GracefulShutdown` (task_manager.go lines 75-98).

Time is modelled explicitly: `drain` is the instant, measured from the call,
at which the `WaitGroup` counter reaches zero (`wg.Wait` returns), supplied by
the environment; `timeout` is the argument.  The result is the state at
return, the elapsed time at return, and the log line emitted — the Go
function returns no value, so no error can be reported to the caller.  With
`wait = false` the `select` is never reached and the call returns right after
the broadcast; with `wait = true` the `select` resolves at
`min drain timeout`. -/
def gracefulShutdown (s : TMState) (wait : Bool) (timeout drain : Nat) :
    TMState × Nat × String :=
  let s1 := shutdownBroadcast s
  if wait then
    if drain ≤ timeout then (s1, drain, "All tasks completed gracefully")
    else (s1, timeout, "Graceful shutdown timed out")
  else (s1, 0, "Graceful shutdown triggered without waiting")

/-- Program counter and local variables of one in-flight `StopTask(id)` call,
used to model races between several callers.  `loaded` holds the result of the
`s.tasks.Load(id)` step once that step has executed; `ret` holds the return
value once the call has finished. -/
structure StopThread where
  loaded : Option (Option Nat)
  ret : Option Bool
deriving DecidableEq

/-- A `StopTask` call that has not executed any step yet. -/
def stopThreadInit : StopThread := ⟨none, none⟩

/-- One atomic step of an in-flight `StopTask(id)` call: first the `Load`;
then, on the ok branch, the `CancelFunc` call and the `Delete` (returning
true), or on the other branch returning false.  A finished call steps to
itself. -/
def stopStep (s : TMState) (id : String) (t : StopThread) :
    TMState × StopThread :=
  match t.loaded with
  | none => (s, { t with loaded := some (mapLoad s id) })
  | some (some tok) =>
      match t.ret with
      | none => (mapDelete (fireCancel s tok) id, { t with ret := some true })
      | some _ => (s, t)
  | some none =>
      match t.ret with
      | none => (s, { t with ret := some false })
      | some _ => (s, t)

/-- Run two concurrent `StopTask(id)` calls under an explicit schedule:
`false` steps thread A, `true` steps thread B. -/
def runTwoStops (s : TMState) (id : String) (a b : StopThread) :
    List Bool → TMState × StopThread × StopThread
  | [] => (s, a, b)
  | c :: rest =>
      if c then
        let p := stopStep s id b
        runTwoStops p.1 id a p.2 rest
      else
        let p := stopStep s id a
        runTwoStops p.1 id p.2 b rest

/-- `n` serialized `StopTask(id)` calls, returning the final state and how
many of the calls returned true. -/
def serialStops (s : TMState) (id : String) : Nat → TMState × Nat
  | 0 => (s, 0)
  | n + 1 =>
      let p := stopTask s id
      let q := serialStops p.1 id n
      (q.1, (if p.2 then 1 else 0) + q.2)

/-- A manager state with one accepted task: `StartTask(Background(), "t", fn)`
on a fresh manager.  The stored `CancelFunc` has token 0. -/
def oneTaskState : TMState :=
  (startTask newTaskManager (.root none) "t" true).state

/-- The displacement scenario: `StartTask` twice under id "a" on a fresh
manager.  Generation 0 is displaced (its token 0 is fired) and the registry
holds generation 1's token. -/
def displaceScenario : TMState :=
  (startTask (startTask newTaskManager (.root none) "a" true).state
    (.root none) "a" true).state

end GoUtil

namespace Shardqueue

/-- FNV-1a 32-bit offset basis (`hash/fnv`). -/
def fnvOffsetBasis32 : Nat := 2166136261

/-- FNV-1a 32-bit prime (`hash/fnv`). -/
def fnvPrime32 : Nat := 16777619

/-- `fnv.New32a()` followed by `h.Write(bytes)` and `h.Sum32()`: the FNV-1a
hash of the byte string, all arithmetic in 32 bits. -/
def fnv32a (bytes : List Nat) : Nat :=
  bytes.foldl (fun h b => ((h ^^^ b) * fnvPrime32) % 4294967296)
    fnvOffsetBasis32

/-- `hashKeyToShard` (shardqueue.go lines 55-59): `int(h.Sum32()) % numShard`.
On 64-bit Go, `int(h.Sum32())` is the non-negative hash value, so the Go `%`
agrees with `Nat` remainder. -/
def hashKeyToShard (key : List Nat) (numShard : Nat) : Nat :=
  fnv32a key % numShard

/-- A Go value presented as the `interface{}` routing key of `Shard`, split by
the type switch of `convertKeyToBytes` (shardqueue.go lines 61-91).  Numeric
payloads carry the mathematical value of the Go datum (`int`/`int32`/`int64`
as `Int`, the unsigned types as `Nat`); a float key carries the IEEE-754
`Float64bits` pattern of its value widened to `float64` (Go widens `float32`
exactly before taking bits).  `other` stands for a value of any type not
matched by the switch, carrying an arbitrary description tag. -/
inductive GoKey where
  | bytes (bs : List Nat)
  | str (v : String)
  | int (n : Int)
  | int32 (n : Int)
  | int64 (n : Int)
  | uint (n : Nat)
  | uint32 (n : Nat)
  | uint64 (n : Nat)
  | float64 (bits : Nat)
  | float32 (bits : Nat)
  | other (tag : String)
deriving DecidableEq

/-- The eight big-endian bytes of `u` as a `uint64`
(`binary.BigEndian.PutUint64`). -/
def beBytes8 (u : Nat) : List Nat :=
  [u / 2 ^ 56 % 256, u / 2 ^ 48 % 256, u / 2 ^ 40 % 256, u / 2 ^ 32 % 256,
   u / 2 ^ 24 % 256, u / 2 ^ 16 % 256, u / 2 ^ 8 % 256, u % 256]

/-- `intToBytes` (shardqueue.go lines 93-97): `uint64(n)` is the two's
complement residue of `n` mod 2^64, written big-endian. -/
def intToBytes (n : Int) : List Nat :=
  beBytes8 (n % (2 : Int) ^ 64).toNat

/-- `uintToBytes` (shardqueue.go lines 99-103); the argument is a `uint64`, so
its value is its residue mod 2^64. -/
def uintToBytes (n : Nat) : List Nat :=
  beBytes8 (n % 2 ^ 64)

/-- `floatToBytes` (shardqueue.go lines 105-110): the `Float64bits` pattern,
written big-endian. -/
def floatToBytes (bits : Nat) : List Nat :=
  beBytes8 (bits % 2 ^ 64)

/-- The UTF-8 bytes of a Go string (`[]byte(v)`). -/
def goStringBytes (v : String) : List Nat :=
  v.data.flatMap (fun c => (String.utf8EncodeChar c).map (fun b => b.toNat))

/-- `convertKeyToBytes` (shardqueue.go lines 61-91). -/
def convertKeyToBytes : GoKey → List Nat
  | .bytes bs => bs
  | .str v => goStringBytes v
  | .int n => intToBytes n
  | .int32 n => intToBytes n
  | .int64 n => intToBytes n
  | .uint n => uintToBytes n
  | .uint32 n => uintToBytes n
  | .uint64 n => uintToBytes n
  | .float64 bits => floatToBytes bits
  | .float32 bits => floatToBytes bits
  | .other _ => goStringBytes "defaultRoutingKey"

/-- The shard index computed by `Shardqueue.Shard` (shardqueue.go lines
41-44) for a routing key and a pool of `numShard` queues. -/
def shardOf (key : GoKey) (numShard : Nat) : Nat :=
  hashKeyToShard (convertKeyToBytes key) numShard

end Shardqueue

namespace GoUtil

/-- Helper: a key filtered out of the registry cannot be found again. -/
theorem find_filter_self (l : List (String × Nat)) (id : String) :
    (l.filter (fun e => e.1 != id)).find? (fun e => e.1 == id) = none := by
  induction l with
  | nil => rfl
  | cons a t ih =>
      by_cases h : a.1 = id <;>
        simp [List.filter_cons, List.find?_cons, h, ih]

/-- Helper: filtering out one key leaves lookups of any other key alone. -/
theorem find_filter_other (l : List (String × Nat)) (id id' : String)
    (h : id' ≠ id) :
    (l.filter (fun e => e.1 != id)).find? (fun e => e.1 == id') =
      l.find? (fun e => e.1 == id') := by
  induction l with
  | nil => rfl
  | cons a t ih =>
      by_cases ha : a.1 = id
      · have hb : ¬ a.1 = id' := by
          intro hx
          exact h (hx ▸ ha)
        simp [List.filter_cons, List.find?_cons, ha, hb, ih, Ne.symm h]
      · by_cases hb : a.1 = id' <;>
          simp [List.filter_cons, List.find?_cons, ha, hb, ih, h]

/-- Helper: a key filtered out of the registry has no remaining entries. -/
theorem countP_filter_self (l : List (String × Nat)) (id : String) :
    (l.filter (fun e => e.1 != id)).countP (fun e => e.1 == id) = 0 := by
  induction l with
  | nil => rfl
  | cons a t ih =>
      by_cases h : a.1 = id <;>
        simp [List.filter_cons, List.countP_cons, h, ih]

/-- Helper: `Load` after `Store` of the same id yields the stored token. -/
theorem mapLoad_store_self (s : TMState) (id : String) (tok : Nat) :
    mapLoad (mapStore s id tok) id = some tok := by
  simp [mapLoad, mapStore, List.find?_append, find_filter_self]

/-- Helper: `Load` after `Delete` of the same id yields nothing. -/
theorem mapLoad_delete_self (s : TMState) (id : String) :
    mapLoad (mapDelete s id) id = none := by
  simp [mapLoad, mapDelete, find_filter_self]

/-- Helper: `Delete` of one id leaves `Load` of any other id alone. -/
theorem mapLoad_delete_other (s : TMState) (id id' : String) (h : id' ≠ id) :
    mapLoad (mapDelete s id) id' = mapLoad s id' := by
  simp [mapLoad, mapDelete, find_filter_other _ _ _ h]

/-- Helper: calling a `CancelFunc` does not touch the registry. -/
theorem mapLoad_fireCancel (s : TMState) (tok : Nat) (id : String) :
    mapLoad (fireCancel s tok) id = mapLoad s id := rfl

/-- Helper: serialized `StopTask` calls on an absent id all return false and
leave the state untouched. -/
theorem serialStops_absent (s : TMState) (id : String) (n : Nat)
    (h : mapLoad s id = none) : serialStops s id n = (s, 0) := by
  induction n with
  | zero => rfl
  | succ m ih => simp [serialStops, stopTask, h, ih]

/-- C1, counterexample.  In the displacement scenario the registry holds
generation 1's token (1), not the finishing generation-0 supervisor's own
token (0); yet when that old supervisor terminates and its cleanup runs,
the entry disappears — the cleanup deleted the newer generation's entry,
while the newer supervisor is still in flight (`wg = 1`). -/
theorem claim1_counterexample :
    (startTask newTaskManager (.root none) "a" true).newTok = some 0 ∧
    mapLoad displaceScenario "a" = some 1 ∧
    hasTask (supervisorRun displaceScenario "a" (some .canceled)).1 "a"
      = false ∧
    (supervisorRun displaceScenario "a" (some .canceled)).1.wg = 1 := by
  decide

/-- C1, amended: the supervisor's deferred cleanup removes the registry entry
for its task id unconditionally — whatever generation's handle the entry
holds, including a newer one installed in the meantime — while entries of
other ids are untouched and the tracker is decremented. -/
theorem supervisor_cleanup_unconditional (s : TMState) (id id' : String)
    (outcome : Option GoErr) :
    hasTask (supervisorRun s id outcome).1 id = false ∧
    (id' ≠ id → mapLoad (supervisorRun s id outcome).1 id' = mapLoad s id') ∧
    (supervisorRun s id outcome).1.wg = s.wg - 1 := by
  refine ⟨?_, ?_, rfl⟩
  · have h1 : mapLoad (supervisorRun s id outcome).1 id = none :=
      mapLoad_delete_self s id
    simp [hasTask, h1]
  · intro h
    exact mapLoad_delete_other s id id' h

/-- C1, witness for the amended theorem at a concrete state. -/
theorem supervisor_cleanup_unconditional_witness :
    hasTask (supervisorRun displaceScenario "a" none).1 "a" = false ∧
    mapLoad (supervisorRun displaceScenario "a" none).1 "b" =
      mapLoad displaceScenario "b" :=
  ⟨(supervisor_cleanup_unconditional displaceScenario "a" "b" none).1,
   (supervisor_cleanup_unconditional displaceScenario "a" "b" none).2.1
     (by decide)⟩

/-- C2, counterexample.  `StopTask` is a `Load` followed by a separate
`Delete`; under the schedule A-load, B-load, A-finish, B-finish, two
concurrent `StopTask("t")` calls on one existing task both return true. -/
theorem claim2_counterexample :
    hasTask oneTaskState "t" = true ∧
    (runTwoStops oneTaskState "t" stopThreadInit stopThreadInit
      [false, true, false, true]).2.1.ret = some true ∧
    (runTwoStops oneTaskState "t" stopThreadInit stopThreadInit
      [false, true, false, true]).2.2.ret = some true := by
  decide

/-- C2, amended: when the `StopTask(id)` calls do not interleave (each call's
load and delete run as one block), exactly one of `n ≥ 1` serialized calls on
an existing id returns true; the mutual exclusion comes only from this
serialization, not from the load-then-delete pair itself. -/
theorem stopTask_serial_exactly_one (s : TMState) (id : String) (tok : Nat)
    (n : Nat) (hpres : mapLoad s id = some tok) (hn : 1 ≤ n) :
    (serialStops s id n).2 = 1 := by
  cases n with
  | zero => omega
  | succ m =>
      have habs :
          mapLoad (mapDelete (fireCancel s tok) id) id = none :=
        mapLoad_delete_self _ id
      simp [serialStops, stopTask, hpres, serialStops_absent _ _ _ habs]

/-- C2, witness for the amended theorem: two serialized `StopTask("t")` calls
on a state holding task "t" produce exactly one true. -/
theorem stopTask_serial_exactly_one_witness :
    (serialStops oneTaskState "t" 2).2 = 1 :=
  stopTask_serial_exactly_one oneTaskState "t" 0 2 (by decide) (by decide)

/-- C3: the `WaitGroup` counter grows by exactly one on an accepted
`StartTask` (and is untouched on a rejected one), the supervisor is spawned
exactly when the call is accepted, and one supervisor termination shrinks the
counter by exactly one whatever the task function's outcome — the decrement
sits in the supervisor's deferred block, which runs on every exit path. -/
theorem completion_tracker_inc_dec (s : TMState) (ctx : Ctx) (id : String)
    (fnP : Bool) (outcome : Option GoErr) :
    (startTask s ctx id fnP).state.wg =
      s.wg + (if (startTask s ctx id fnP).err = none then 1 else 0) ∧
    (startTask s ctx id fnP).spawned =
      decide ((startTask s ctx id fnP).err = none) ∧
    (supervisorRun s id outcome).1.wg = s.wg - 1 := by
  refine ⟨?_, ?_, rfl⟩ <;>
  · by_cases h1 : id = ""
    · simp [startTask, h1]
    · by_cases h2 : fnP = false
      · simp [startTask, h1, h2]
      · cases hc : ctxErr s ctx with
        | some e => simp [startTask, h1, h2, hc]
        | none =>
            cases hl : mapLoad s id <;>
              simp [startTask, h1, h2, hc, hl, mapStore, fireCancel]

/-- C4: `StartTask` returns `ErrInvalidTaskID` on an empty id,
`ErrNilTaskFunc` on an absent function, and the input context's own `Err()`
value unchanged when that context is already terminated; in each failure the
state is untouched (so `HasTask` is unchanged, in particular still false if it
was false) and no supervisor is spawned, hence the function is never invoked;
with valid inputs no error is returned. -/
theorem startTask_validation (s : TMState) (ctx : Ctx) (id : String)
    (fnP : Bool) :
    (id = "" → startTask s ctx id fnP =
      ⟨s, some .errInvalidTaskID, false, none, none⟩) ∧
    (id ≠ "" → fnP = false → startTask s ctx id fnP =
      ⟨s, some .errNilTaskFunc, false, none, none⟩) ∧
    (∀ r, id ≠ "" → fnP = true → ctxErr s ctx = some r →
      startTask s ctx id fnP = ⟨s, some r, false, none, none⟩) ∧
    (id ≠ "" → fnP = true → ctxErr s ctx = none →
      (startTask s ctx id fnP).err = none) := by
  refine ⟨?_, ?_, ?_, ?_⟩
  · intro h1
    simp [startTask, h1]
  · intro h1 h2
    simp [startTask, h1, h2]
  · intro r h1 h2 h3
    simp [startTask, h1, h2, h3]
  · intro h1 h2 h3
    cases hl : mapLoad s id <;> simp [startTask, h1, h2, h3, hl]

/-- C4, witness: a fresh manager with an already-terminated context
(deadline exceeded) rejects the call, forwards exactly that reason, and
leaves the state untouched. -/
theorem startTask_validation_witness :
    startTask newTaskManager (.root (some .deadlineExceeded)) "x" true =
      ⟨newTaskManager, some .deadlineExceeded, false, none, none⟩ :=
  (startTask_validation newTaskManager (.root (some .deadlineExceeded)) "x"
    true).2.2.1 .deadlineExceeded (by decide) rfl rfl

/-- C5: an accepted `StartTask` on an id that already has an entry fires the
old generation's handle, installs the fresh generation (a new token and a
`context.WithCancel` child of the given parent), increments the tracker, and
returns no error with the supervisor merely scheduled; the registry then
holds exactly one entry for the id — the new generation's. -/
theorem startTask_displacement (s : TMState) (ctx : Ctx) (id : String)
    (tokOld : Nat) (hid : id ≠ "") (hctx : ctxErr s ctx = none)
    (hold : mapLoad s id = some tokOld) :
    (startTask s ctx id true).err = none ∧
    (startTask s ctx id true).spawned = true ∧
    tokOld ∈ (startTask s ctx id true).state.fired ∧
    (startTask s ctx id true).newTok = some s.nextTok ∧
    (startTask s ctx id true).childCtx = some (.child ctx s.nextTok) ∧
    mapLoad (startTask s ctx id true).state id = some s.nextTok ∧
    (startTask s ctx id true).state.tasks.countP (fun e => e.1 == id) = 1 ∧
    (startTask s ctx id true).state.wg = s.wg + 1 := by
  have e : startTask s ctx id true =
      ⟨{ tasks := s.tasks.filter (fun x => x.1 != id) ++ [(id, s.nextTok)],
         fired := tokOld :: s.fired, wg := s.wg + 1,
         nextTok := s.nextTok + 1 },
       none, true, some s.nextTok, some (.child ctx s.nextTok)⟩ := by
    simp [startTask, hid, hctx, hold, mapStore, fireCancel]
  rw [e]
  refine ⟨rfl, rfl, ?_, rfl, rfl, ?_, ?_, rfl⟩
  · simp
  · simp [mapLoad, List.find?_append, find_filter_self]
  · simp [List.countP_append, countP_filter_self, List.countP_cons]

/-- C5, witness: displacing task "t" (token 0) in `oneTaskState`. -/
theorem startTask_displacement_witness :
    0 ∈ (startTask oneTaskState (.root none) "t" true).state.fired ∧
    mapLoad (startTask oneTaskState (.root none) "t" true).state "t" =
      some oneTaskState.nextTok := by
  have h := startTask_displacement oneTaskState (.root none) "t" 0
    (by decide) rfl (by decide)
  exact ⟨h.2.2.1, h.2.2.2.2.2.1⟩

/-- C6: a serialized `StopTask` on a present id fires that entry's handle,
removes the entry (other ids and the tracker untouched) and returns true; on
an absent id it returns false with the state exactly unchanged. -/
theorem stopTask_behavior (s : TMState) (id : String) :
    (∀ tok, mapLoad s id = some tok →
      (stopTask s id).2 = true ∧
      tok ∈ (stopTask s id).1.fired ∧
      hasTask (stopTask s id).1 id = false ∧
      (∀ id', id' ≠ id → mapLoad (stopTask s id).1 id' = mapLoad s id') ∧
      (stopTask s id).1.wg = s.wg) ∧
    (mapLoad s id = none → stopTask s id = (s, false)) := by
  constructor
  · intro tok h
    have e : stopTask s id = (mapDelete (fireCancel s tok) id, true) := by
      simp [stopTask, h]
    rw [e]
    refine ⟨rfl, ?_, ?_, ?_, rfl⟩
    · simp [mapDelete, fireCancel]
    · simp [hasTask, mapLoad_delete_self]
    · intro id' hne
      exact mapLoad_delete_other (fireCancel s tok) id id' hne
  · intro h
    simp [stopTask, h]

/-- C6, witness: stopping "t" in `oneTaskState` returns true, and stopping a
task on a fresh manager returns false with no state change. -/
theorem stopTask_behavior_witness :
    (stopTask oneTaskState "t").2 = true ∧
    stopTask newTaskManager "t" = (newTaskManager, false) :=
  ⟨((stopTask_behavior oneTaskState "t").1 0 (by decide)).1,
   (stopTask_behavior newTaskManager "t").2 rfl⟩

/-- Helper: `StartTask` with a non-empty id, a present function and a
non-terminated context is accepted, whatever the rest of the state. -/
theorem startTask_accepts (s : TMState) (ctx : Ctx) (id : String)
    (hid : id ≠ "") (hctx : ctxErr s ctx = none) :
    (startTask s ctx id true).err = none ∧
    (startTask s ctx id true).spawned = true := by
  cases hl : mapLoad s id <;> simp [startTask, hid, hctx, hl]

/-- Helper: the state at return of `GracefulShutdown` is the broadcast state,
on every combination of `wait`, `timeout` and drain instant. -/
theorem gracefulShutdown_state (s : TMState) (wait : Bool)
    (timeout drain : Nat) :
    (gracefulShutdown s wait timeout drain).1 = shutdownBroadcast s := by
  cases wait <;> by_cases hd : drain ≤ timeout <;>
    simp [gracefulShutdown, hd]

/-- C7: `GracefulShutdown` fires the handle of every entry in the registry
snapshot, removes no entry (the registry at return is exactly the registry at
the call), and leaves no closed state behind: a later `StartTask` with valid
inputs is accepted and spawns its supervisor as always. -/
theorem gracefulShutdown_frame (s : TMState) (wait : Bool)
    (timeout drain : Nat) :
    (gracefulShutdown s wait timeout drain).1.tasks = s.tasks ∧
    (∀ id tok, (id, tok) ∈ s.tasks →
      tok ∈ (gracefulShutdown s wait timeout drain).1.fired) ∧
    (∀ ctx id, id ≠ "" →
      ctxErr (gracefulShutdown s wait timeout drain).1 ctx = none →
      (startTask (gracefulShutdown s wait timeout drain).1 ctx id true).err
          = none ∧
      (startTask (gracefulShutdown s wait timeout drain).1 ctx id
          true).spawned = true) := by
  rw [gracefulShutdown_state]
  refine ⟨rfl, ?_, ?_⟩
  · intro id tok h
    exact List.mem_append.mpr
      (Or.inl (List.mem_map.mpr ⟨(id, tok), h, rfl⟩))
  · intro ctx id hid hctx
    exact startTask_accepts _ ctx id hid hctx

/-- C7, witness: after a broadcast over `oneTaskState`, token 0 is fired, the
entry is still registered, and a fresh `StartTask` is accepted. -/
theorem gracefulShutdown_frame_witness :
    (gracefulShutdown oneTaskState true 5 3).1.tasks = oneTaskState.tasks ∧
    0 ∈ (gracefulShutdown oneTaskState true 5 3).1.fired ∧
    (startTask (gracefulShutdown oneTaskState true 5 3).1 (.root none) "x"
      true).err = none :=
  ⟨(gracefulShutdown_frame oneTaskState true 5 3).1,
   (gracefulShutdown_frame oneTaskState true 5 3).2.1 "t" 0 (by decide),
   ((gracefulShutdown_frame oneTaskState true 5 3).2.2 (.root none) "x"
     (by decide) rfl).1⟩

/-- C8: with `wait = false` the call returns right after the broadcast, at
elapsed time zero, for every `timeout`; with `wait = true` it returns at the
drain instant when the tracker drains within `timeout`, and at `timeout`
otherwise — in both cases returning normally, with only a log line telling
the outcomes apart (the function has no error to report). -/
theorem gracefulShutdown_timing (s : TMState) (timeout drain : Nat) :
    gracefulShutdown s false timeout drain =
      (shutdownBroadcast s, 0,
        "Graceful shutdown triggered without waiting") ∧
    (drain ≤ timeout → gracefulShutdown s true timeout drain =
      (shutdownBroadcast s, drain, "All tasks completed gracefully")) ∧
    (timeout < drain → gracefulShutdown s true timeout drain =
      (shutdownBroadcast s, timeout, "Graceful shutdown timed out")) ∧
    (gracefulShutdown s true timeout drain).2.1 = min drain timeout := by
  refine ⟨rfl, ?_, ?_, ?_⟩
  · intro h
    simp [gracefulShutdown, h]
  · intro h
    simp [gracefulShutdown, Nat.not_le.mpr h]
  · by_cases h : drain ≤ timeout
    · simp [gracefulShutdown, h, Nat.min_eq_left h]
    · simp [gracefulShutdown, h,
        Nat.min_eq_right (Nat.le_of_not_le h)]

/-- C8, witness: concrete drain-before-timeout and timeout-before-drain
runs. -/
theorem gracefulShutdown_timing_witness :
    gracefulShutdown oneTaskState true 5 3 =
      (shutdownBroadcast oneTaskState, 3,
        "All tasks completed gracefully") ∧
    gracefulShutdown oneTaskState true 2 7 =
      (shutdownBroadcast oneTaskState, 2,
        "Graceful shutdown timed out") :=
  ⟨(gracefulShutdown_timing oneTaskState 5 3).2.1 (by decide),
   (gracefulShutdown_timing oneTaskState 2 7).2.2.1 (by decide)⟩

end GoUtil

namespace Shardqueue

/-- C9: the routing function is a pure function of the key bytes — equal keys
(indeed any keys with equal byte encodings) land on the same shard — and for
a pool of `numShard > 0` queues its index always lies in `[0, numShard)`. -/
theorem shard_deterministic_and_in_range (key : GoKey) (numShard : Nat)
    (h : 0 < numShard) :
    shardOf key numShard < numShard ∧
    (∀ key2 : GoKey, key2 = key →
      shardOf key2 numShard = shardOf key numShard) ∧
    (∀ key2 : GoKey, convertKeyToBytes key2 = convertKeyToBytes key →
      shardOf key2 numShard = shardOf key numShard) := by
  refine ⟨Nat.mod_lt _ h, ?_, ?_⟩
  · intro k2 e
    rw [e]
  · intro k2 e
    unfold shardOf hashKeyToShard
    rw [e]

/-- C9, witness: a concrete byte key on a four-shard pool. -/
theorem shard_deterministic_and_in_range_witness :
    shardOf (.bytes [1, 2, 3]) 4 < 4 :=
  (shard_deterministic_and_in_range (.bytes [1, 2, 3]) 4 (by decide)).1

/-- C10: every routing key of a type not matched by the switch of
`convertKeyToBytes` is converted to the fixed byte string
"defaultRoutingKey", so any two such keys — however distinct — get the same
byte encoding and are routed to one and the same shard, for every shard
count. -/
theorem unsupported_keys_route_to_one_shard (t1 t2 : String)
    (numShard : Nat) :
    convertKeyToBytes (.other t1) = goStringBytes "defaultRoutingKey" ∧
    convertKeyToBytes (.other t1) = convertKeyToBytes (.other t2) ∧
    shardOf (.other t1) numShard = shardOf (.other t2) numShard :=
  ⟨rfl, rfl, rfl⟩

end Shardqueue
